import Mathlib

/-!
Verification of the Sorea conversation-orchestration core.

A shallow embedding, in Lean 4, of the control flow of the Sorea mental-health
chatbot repository (Python): the orchestrator (`chatbot.py`), the topic filter
(`filter.py`), the classifier and helpers (`managers/helper.py`), the crisis
handler (`managers/crisis.py`), the event extractor (`managers/events.py`) and
the background write queue (`firebase_writer.py`).

External collaborators (the Gemini text-generation capability, Firestore, and
Python's `json.loads`) are modelled as an environment `Env` of outcomes: each
external call either raises (`Except.error ()`) or returns a value.  Exceptions
inside the embedded code are modelled with `Except Unit`.  Machine-level detail
that the claims do not touch (timestamps, prompt text, transport) is omitted;
every function that the claims do touch is translated statement by statement
from the Python source.

Python `str`/`int`/`float` operations used by the source are modelled first;
`hashlib.md5` is implemented in full (on UTF-8 bytes, as in the source) so that
the event-identifier computation is the real one.
-/

namespace PyStr

/-!
The Lean core `String` API hides its recursion behind byte-position iterators
that the kernel cannot unfold, so every Python string operation the source
uses is modelled here by structural recursion over the character list of the
string (`String.toList`/`String.mk`), which both the elaborator and the kernel
evaluate. -/

/-- Python `s.startswith(p)`. -/
def pyStartsWith (s p : String) : Bool :=
  p.toList.isPrefixOf s.toList

/-- Python `s.strip()` (the source strips LLM text; ASCII whitespace). -/
def pyTrim (s : String) : String :=
  String.mk (((s.toList.dropWhile Char.isWhitespace).reverse.dropWhile
    Char.isWhitespace).reverse)

/-- Split a character list at every occurrence of `sep`. -/
def splitOnCharAux (sep : Char) : List Char → List (List Char)
  | [] => [[]]
  | c :: rest =>
    match splitOnCharAux sep rest with
    | [] => [[]]
    | h :: t => if c = sep then [] :: h :: t else (c :: h) :: t

/-- Python `s.split("\n")` — the only multi-piece split the source performs. -/
def pySplitLines (s : String) : List String :=
  (splitOnCharAux '\n' s.toList).map String.mk

/-- The pieces of a character list around the first occurrence of `sep`. -/
def splitFirstAux (sep : Char) : List Char → Option (List Char × List Char)
  | [] => none
  | c :: rest =>
    if c = sep then some ([], rest)
    else (splitFirstAux sep rest).map (fun p => (c :: p.1, p.2))

/-- Python `s.split(sep, 1)` for a one-character separator (the source only
splits on `":"` and `"@"`). -/
def pySplit1 (s : String) (sep : Char) : List String :=
  match splitFirstAux sep s.toList with
  | none => [s]
  | some (a, b) => [String.mk a, String.mk b]

/-- ASCII lowering of one character (`str.lower()` on the ASCII field names
and values the source lowers). -/
def pyLowerChar (c : Char) : Char :=
  if 'A' ≤ c ∧ c ≤ 'Z' then Char.ofNat (c.toNat + 32) else c

/-- ASCII raising of one character. -/
def pyUpperChar (c : Char) : Char :=
  if 'a' ≤ c ∧ c ≤ 'z' then Char.ofNat (c.toNat - 32) else c

/-- Python `s.lower()`. -/
def pyLower (s : String) : String := String.mk (s.toList.map pyLowerChar)

/-- Python `s.upper()`. -/
def pyUpper (s : String) : String := String.mk (s.toList.map pyUpperChar)

/-- Python `s.replace(a, b)` for one-character `a`, `b` (the source replaces
`" "` by `"_"`). -/
def pyReplaceChar (s : String) (a b : Char) : String :=
  String.mk (s.toList.map (fun c => if c = a then b else c))

/-- Python `max(a, b)` on integers (returns the first argument on a tie, as
CPython does; the value is the same either way). -/
def pyMaxInt (a b : Int) : Int := if a < b then b else a

/-- Python `min(a, b)` on integers. -/
def pyMinInt (a b : Int) : Int := if b < a then b else a

/-- Python `max(a, b)` on floats, over `ℚ`. -/
def pyMaxQ (a b : ℚ) : ℚ := if a < b then b else a

/-- Python `min(a, b)` on floats, over `ℚ`. -/
def pyMinQ (a b : ℚ) : ℚ := if b < a then b else a

/-- Test that `sub` occurs as a contiguous sublist of `l`. -/
def listIn (sub : List Char) : List Char → Bool
  | [] => sub.isEmpty
  | c :: rest => sub.isPrefixOf (c :: rest) || listIn sub rest

/-- Python `sub in s` (substring containment). -/
def pyIn (sub s : String) : Bool :=
  listIn sub.toList s.toList

/-- Python `s.find(c)` for a single character, as an `Option` (Python returns -1). -/
def pyFind (s : String) (c : Char) : Option Nat :=
  s.toList.indexOf? c

/-- Python `s.rfind(c)` for a single character, as an `Option`. -/
def pyRfind (s : String) (c : Char) : Option Nat :=
  match s.toList.reverse.indexOf? c with
  | none => none
  | some i => some (s.toList.length - 1 - i)

/-- Python `s[start:stop]` with non-negative code-point indices. -/
def pySlice (s : String) (start stop : Nat) : String :=
  String.mk ((s.toList.drop start).take (stop - start))

/-- Digits of a literal read as a natural number. -/
def digitsVal (ds : List Char) : ℕ :=
  Nat.ofDigits 10 (ds.reverse.map (fun c => c.toNat - '0'.toNat))

/-- Python `int(s)`: optional surrounding whitespace, optional sign, decimal
digits (numeric-literal underscores are not modelled).  `none` models
`ValueError`. -/
def pyInt? (s : String) : Option Int :=
  match (pyTrim s).toList with
  | '+' :: ds => if ds ≠ [] ∧ ds.all Char.isDigit then some (digitsVal ds : ℤ) else none
  | '-' :: ds => if ds ≠ [] ∧ ds.all Char.isDigit then some (-(digitsVal ds : ℤ)) else none
  | ds => if ds ≠ [] ∧ ds.all Char.isDigit then some (digitsVal ds : ℤ) else none

/-- Large stand-in for IEEE `inf`/`nan` in `float(s)`.  The only use the source
makes of a parsed float is the clamp `max(0.1, min(1.0, c))`, whose CPython
result on `inf` and on `nan` equals its result on any huge positive value
(`1.0`), so the stand-in is observationally faithful there. -/
def hugeFloat : ℚ := 10 ^ (400 : ℕ)

/-- Exponent suffix of a Python float literal: `e`/`E` already consumed. -/
def pyFloatExp (base : ℚ) (cs : List Char) : Option ℚ :=
  let (sgn, ds) : Int × List Char :=
    match cs with
    | '+' :: r => (1, r)
    | '-' :: r => (-1, r)
    | r => (1, r)
  if ds ≠ [] ∧ ds.all Char.isDigit then
    some (base * (10 : ℚ) ^ (sgn * (Nat.ofDigits 10 (ds.reverse.map (fun c => c.toNat - '0'.toNat)) : Int)))
  else none

/-- Python `float(s)` body after sign removal and lowercasing. -/
def pyFloatBody (cs : List Char) : Option ℚ :=
  if cs = "inf".toList ∨ cs = "infinity".toList ∨ cs = "nan".toList then some hugeFloat
  else
    let ip := cs.takeWhile Char.isDigit
    let rest := cs.dropWhile Char.isDigit
    match rest with
    | [] => if ip = [] then none else some (digitsVal ip)
    | '.' :: rest2 =>
      let fp := rest2.takeWhile Char.isDigit
      let rest3 := rest2.dropWhile Char.isDigit
      if ip = [] ∧ fp = [] then none
      else
        let base : ℚ := digitsVal ip + (digitsVal fp : ℚ) / (10 : ℚ) ^ fp.length
        match rest3 with
        | [] => some base
        | 'e' :: rest4 => pyFloatExp base rest4
        | _ => none
    | 'e' :: rest4 => if ip = [] then none else pyFloatExp (digitsVal ip) rest4
    | _ => none

/-- Python `float(s)`: optional surrounding whitespace, optional sign, decimal
or exponent literal, or `inf`/`infinity`/`nan`.  `none` models `ValueError`.
(`float("-nan")` is NaN in CPython, i.e. sign-less; the clamp in `filter.py`
sends it to `1.0`, matching `hugeFloat`, so `nan` ignores the sign here.) -/
def pyFloat? (s : String) : Option ℚ :=
  let t := (pyLower (pyTrim s)).toList
  match t with
  | '+' :: r => pyFloatBody r
  | '-' :: r =>
    if r = "nan".toList then some hugeFloat
    else (pyFloatBody r).map (fun q => -q)
  | r => pyFloatBody r

/-- Python `str(x)` for an optional string (`str(None) = "None"`), as used by
f-strings on a possibly absent profile name. -/
def pyStr : Option String → String
  | some s => s
  | none => "None"

end PyStr

namespace MD5

/-- Reduce to a 32-bit word. -/
def w32 (x : ℕ) : ℕ := x % 4294967296

/-- 32-bit left rotation (operand assumed < 2^32). -/
def rotl32 (x n : ℕ) : ℕ := w32 (x <<< n) ||| (x >>> (32 - n))

/-- All-ones 32-bit mask, used for bitwise complement. -/
def mask32 : ℕ := 4294967295

/-- The 64 MD5 sine constants `K`. -/
def Ktable : List ℕ :=
  [0xd76aa478, 0xe8c7b756, 0x242070db, 0xc1bdceee,
   0xf57c0faf, 0x4787c62a, 0xa8304613, 0xfd469501,
   0x698098d8, 0x8b44f7af, 0xffff5bb1, 0x895cd7be,
   0x6b901122, 0xfd987193, 0xa679438e, 0x49b40821,
   0xf61e2562, 0xc040b340, 0x265e5a51, 0xe9b6c7aa,
   0xd62f105d, 0x02441453, 0xd8a1e681, 0xe7d3fbc8,
   0x21e1cde6, 0xc33707d6, 0xf4d50d87, 0x455a14ed,
   0xa9e3e905, 0xfcefa3f8, 0x676f02d9, 0x8d2a4c8a,
   0xfffa3942, 0x8771f681, 0x6d9d6122, 0xfde5380c,
   0xa4beea44, 0x4bdecfa9, 0xf6bb4b60, 0xbebfbc70,
   0x289b7ec6, 0xeaa127fa, 0xd4ef3085, 0x04881d05,
   0xd9d4d039, 0xe6db99e5, 0x1fa27cf8, 0xc4ac5665,
   0xf4292244, 0x432aff97, 0xab9423a7, 0xfc93a039,
   0x655b59c3, 0x8f0ccc92, 0xffeff47d, 0x85845dd1,
   0x6fa87e4f, 0xfe2ce6e0, 0xa3014314, 0x4e0811a1,
   0xf7537e82, 0xbd3af235, 0x2ad7d2bb, 0xeb86d391]

/-- The 64 MD5 per-round shift amounts. -/
def Stable : List ℕ :=
  [7, 12, 17, 22, 7, 12, 17, 22, 7, 12, 17, 22, 7, 12, 17, 22,
   5, 9, 14, 20, 5, 9, 14, 20, 5, 9, 14, 20, 5, 9, 14, 20,
   4, 11, 16, 23, 4, 11, 16, 23, 4, 11, 16, 23, 4, 11, 16, 23,
   6, 10, 15, 21, 6, 10, 15, 21, 6, 10, 15, 21, 6, 10, 15, 21]

/-- Four state words. -/
abbrev St := ℕ × ℕ × ℕ × ℕ

/-- One of the 64 MD5 rounds, over the 16 message words `M`. -/
def md5Round (M : List ℕ) (st : St) (i : ℕ) : St :=
  let (a, b, c, d) := st
  let f :=
    if i < 16 then (b &&& c) ||| ((b ^^^ mask32) &&& d)
    else if i < 32 then (d &&& b) ||| ((d ^^^ mask32) &&& c)
    else if i < 48 then b ^^^ c ^^^ d
    else c ^^^ (b ||| (d ^^^ mask32))
  let g :=
    if i < 16 then i
    else if i < 32 then (5 * i + 1) % 16
    else if i < 48 then (3 * i + 5) % 16
    else (7 * i) % 16
  let tmp := w32 (a + f + Ktable.getD i 0 + M.getD g 0)
  (d, w32 (b + rotl32 tmp (Stable.getD i 0)), b, c)

/-- Little-endian 32-bit word from four bytes. -/
def wordLE (bs : List ℕ) : ℕ :=
  bs.getD 0 0 + 256 * bs.getD 1 0 + 65536 * bs.getD 2 0 + 16777216 * bs.getD 3 0

/-- One 64-byte chunk folded into the state. -/
def md5Chunk (st : St) (chunk : List ℕ) : St :=
  let M := (List.range 16).map (fun j => wordLE ((chunk.drop (4 * j)).take 4))
  let (a0, b0, c0, d0) := st
  let (a, b, c, d) := (List.range 64).foldl (md5Round M) st
  (w32 (a0 + a), w32 (b0 + b), w32 (c0 + c), w32 (d0 + d))

/-- MD5 padding: `0x80`, zeros to 56 mod 64, then the 64-bit little-endian bit
length. -/
def md5Pad (msg : List ℕ) : List ℕ :=
  let len := msg.length
  let z := (120 - ((len + 1) % 64)) % 64
  let bitLen := (8 * len) % (2 ^ 64)
  msg ++ [0x80] ++ List.replicate z 0 ++
    (List.range 8).map (fun i => bitLen / (256 ^ i) % 256)

/-- Lowercase hex digit. -/
def hexDigit (n : ℕ) : Char :=
  if n < 10 then Char.ofNat ('0'.toNat + n) else Char.ofNat ('a'.toNat + n - 10)

/-- Two lowercase hex digits of a byte. -/
def byteHex (b : ℕ) : String :=
  String.mk [hexDigit (b / 16 % 16), hexDigit (b % 16)]

/-- Little-endian hex rendering of a 32-bit word, as in `hexdigest()`. -/
def wordHexLE (w : ℕ) : String :=
  byteHex (w % 256) ++ byteHex (w / 256 % 256) ++
    byteHex (w / 65536 % 256) ++ byteHex (w / 16777216 % 256)

/-- UTF-8 encoding of one code point (the encoding `str.encode()` performs). -/
def utf8Char (c : Char) : List ℕ :=
  let n := c.toNat
  if n < 128 then [n]
  else if n < 2048 then [192 ||| (n >>> 6), 128 ||| (n &&& 63)]
  else if n < 65536 then
    [224 ||| (n >>> 12), 128 ||| ((n >>> 6) &&& 63), 128 ||| (n &&& 63)]
  else
    [240 ||| (n >>> 18), 128 ||| ((n >>> 12) &&& 63),
     128 ||| ((n >>> 6) &&& 63), 128 ||| (n &&& 63)]

/-- UTF-8 bytes of a string. -/
def utf8Bytes (s : String) : List ℕ :=
  s.data.foldr (fun c acc => utf8Char c ++ acc) []

/-- Model of `hashlib.md5(s.encode()).hexdigest()`: MD5 of the UTF-8 bytes of `s`,
rendered as 32 lowercase hex characters. -/
def md5hex (s : String) : String :=
  let bytes := utf8Bytes s
  let padded := md5Pad bytes
  let chunks := (List.range (padded.length / 64)).map
    (fun i => (padded.drop (64 * i)).take 64)
  let (a, b, c, d) :=
    chunks.foldl md5Chunk (0x67452301, 0xefcdab89, 0x98badcfe, 0x10325476)
  wordHexLE a ++ wordHexLE b ++ wordHexLE c ++ wordHexLE d

end MD5

open PyStr

/-! ## Data model (`data.py`)

Fields of pydantic models that the embedded control flow never reads
(`mentionedAt`, `timestamp`, `conversation_id`, and the profile fields other
than `name`) are omitted. -/

/-- Model of `data.UserProfile` (only `name` is read by the core; it is `Optional`). -/
structure UserProfile where
  name : Option String
deriving DecidableEq, Repr

/-- Model of `data.UserMessage`. -/
structure UserMessage where
  content : String
  emotion_detected : Option String := none
  urgency_level : Int := 1
deriving DecidableEq, Repr

/-- Model of `data.LLMMessage`. -/
structure LLMMessage where
  content : String
  suggestions : List String := []
  follow_up_questions : List String := []
deriving DecidableEq, Repr

/-- Model of `data.MessagePair` (timestamp and conversation id omitted, unused). -/
structure MessagePair where
  user_message : UserMessage
  llm_message : LLMMessage
deriving DecidableEq, Repr

/-- Model of `data.MentalHealthTopicFilter`.  The pydantic `Field(ge=0.0, le=1.0)`
bound on `confidence_score` is proved, not assumed, in the range theorem. -/
structure MentalHealthTopicFilter where
  is_mental_health_related : Bool
  confidence_score : ℚ
  reason : String
deriving DecidableEq, Repr

/-- Model of `data.Event` (`mentionedAt`, a wall-clock default, omitted). -/
structure Event where
  eventid : String
  eventType : String
  description : String
  eventDate : String
  isCompleted : Bool
deriving DecidableEq, Repr

/-! ## A model of Python values produced by `json.loads` -/

/-- The Python values the embedded code can receive from `json.loads`. -/
inductive PyVal where
  | pnone : PyVal
  | pbool : Bool → PyVal
  | pnum : ℚ → PyVal
  | pstr : String → PyVal
  | plist : List PyVal → PyVal
  | pdict : List (String × PyVal) → PyVal

namespace PyVal

/-- Python truthiness. -/
def truthy : PyVal → Bool
  | pnone => false
  | pbool b => b
  | pnum q => q ≠ 0
  | pstr s => s ≠ ""
  | plist l => !l.isEmpty
  | pdict d => !d.isEmpty

/-- Numeric view: `bool` is numeric in Python; `none` models the `TypeError`
raised when a non-number meets a float comparison. -/
def asNum? : PyVal → Option ℚ
  | pbool b => some (if b then 1 else 0)
  | pnum q => some q
  | _ => none

/-- The string payload, if this is a `str` value. -/
def asStr? : PyVal → Option String
  | pstr s => some s
  | _ => none

/-- A `List[str]` payload, as pydantic validation of `List[str]` accepts it. -/
def asStrList? : PyVal → Option (List String)
  | plist l =>
    if l.all (fun v => match v with | pstr _ => true | _ => false)
    then some (l.filterMap asStr?) else none
  | _ => none

/-- Python `d.get(k)` on a parsed JSON object. -/
def dictGet (d : List (String × PyVal)) (k : String) : Option PyVal :=
  (d.find? (fun p => p.1 == k)).map Prod.snd

/-- Python `k in d`. -/
def dictHas (d : List (String × PyVal)) (k : String) : Bool :=
  (dictGet d k).isSome

/-- Python `isinstance(v, dict)`. -/
def isDict : PyVal → Bool
  | pdict _ => true
  | _ => false

end PyVal

/-! ## The environment of external outcomes

One orchestration request interacts with: the Firestore gateway (profile read,
conversation read), five distinct text-generation invocations, and `json.loads`.
Each is modelled by its outcome for this request; `Except.error ()` means the
call raised.  `get_conversation` (`managers/message.py`) wraps its entire body
in `try/except` and returns `[]` on failure, and `detect_emotion` likewise
never raises, so their outcomes are plain values. -/

/-- Outcomes of the external collaborators during one `process` request.
Repeated calls with the same arguments (the degraded fallback re-runs the
pipeline) are modelled as returning the same outcome. -/
structure Env where
  /-- Outcome of `firebase_manager.get_user_profile(email)`: may raise. -/
  profile : Except Unit UserProfile
  /-- Outcome of `message_manager.get_conversation(email, fm, None, 20)`: total. -/
  conversation : List MessagePair
  /-- text of the classifier response (`helper.detect_emotion`). -/
  emotionLLM : Except Unit String
  /-- text of the topic-filter response (`filter.filter`). -/
  filterLLM : Except Unit String
  /-- text of the crisis-generation response (`crisis.handle_crisis_situation`). -/
  crisisLLM : Except Unit String
  /-- text of the event-extraction response (`events._extract_events_with_llm`). -/
  eventLLM : Except Unit String
  /-- text of the normal-reply generation (`chatbot._generate_response_async`). -/
  genLLM : Except Unit String
  /-- Behaviour of `json.loads` on the text the code slices out; `none` means `JSONDecodeError`. -/
  jsonLoads : String → Option PyVal

/-! ## Classifier (`managers/helper.py`, `HelperManager.detect_emotion`) -/

namespace HelperManager

/-- One iteration of the parse loop of `detect_emotion` (lines 70-79): a line
starting `EMOTION:` sets the emotion, a line starting `URGENCY:` sets the
urgency to the clamped parsed integer, or to 1 on `ValueError`. -/
def emotionLine (st : String × Int) (line : String) : String × Int :=
  if pyStartsWith line "EMOTION:" then
    (pyLower (pyTrim ((pySplit1 line ':').getD 1 "")), st.2)
  else if pyStartsWith line "URGENCY:" then
    match pyInt? (pyTrim ((pySplit1 line ':').getD 1 "")) with
    | some u => (st.1, pyMaxInt 1 (pyMinInt 5 u))
    | none => (st.1, 1)
  else st

/-- Model of `HelperManager.detect_emotion`: parses `EMOTION:`/`URGENCY:` lines out of
the classifier response; any exception anywhere (including an invocation
failure) yields `("neutral", 1)`. -/
def detect_emotion (resp : Except Unit String) : String × Int :=
  match resp with
  | .error _ => ("neutral", 1)
  | .ok content =>
    let response_text := pyTrim content
    (pySplitLines response_text).foldl emotionLine ("neutral", 1)

end HelperManager

/-! ## Topic filter (`filter.py`, `MentalHealthFilter.filter`) -/

namespace MentalHealthFilter

/-- One iteration of the parse loop of `filter` (lines 69-79), updating the
`(is_mental_health, confidence, reason)` accumulators, which start as `None`. -/
def filterLine (st : Option Bool × Option ℚ × Option String) (line : String) :
    Option Bool × Option ℚ × Option String :=
  if pyStartsWith line "MENTAL_HEALTH:" then
    (some (pyIn "YES" (pyUpper line)), st.2.1, st.2.2)
  else if pyStartsWith line "CONFIDENCE:" then
    let c : ℚ :=
      match pyFloat? (pyTrim ((pySplit1 line ':').getD 1 "")) with
      | some q => pyMaxQ 0.1 (pyMinQ 1 q)
      | none => 0.1
    (st.1, some c, st.2.2)
  else if pyStartsWith line "REASON:" then
    (st.1, st.2.1, some (pyTrim ((pySplit1 line ':').getD 1 "")))
  else st

/-- Model of `MentalHealthFilter.filter`.  There, `last_messages[-1]` is read before the
invocation, so the empty list raises `IndexError`; the invocation itself is
*not* inside any `try`, so an invocation failure propagates.  Malformed or
missing fields fall back to `bool(None) = False`, `0.1`, and the fixed
reason. -/
def filter (last_messages : List String) (resp : Except Unit String) :
    Except Unit MentalHealthTopicFilter :=
  match last_messages.getLast? with
  | none => .error ()
  | some _final_message =>
    match resp with
    | .error _ => .error ()
    | .ok content =>
      let response_text := pyTrim content
      let (im, conf, reason) :=
        (pySplitLines response_text).foldl filterLine (none, none, none)
      .ok { is_mental_health_related := im.getD false
            confidence_score := conf.getD 0.1
            reason :=
              match reason with
              | some r => if r ≠ "" then r else "LLM did not provide a reason."
              | none => "LLM did not provide a reason." }

end MentalHealthFilter

/-! ## JSON slice extraction (shared shape of `crisis.py` 96-106 and
`events.py` 124-127)

When both braces occur, the code takes the substring from the first `{`
through the last `}`.  When they do not, either a `ValueError` is raised
directly, or (in the markdown branch of `crisis.py` with no brace) a slice is
produced that `json.loads` necessarily rejects; both continuations are the
parse-failure path, which `none` models. -/

/-- The `response_text[start:end]` JSON candidate, from first `{` to last `}`. -/
def extractJsonSlice (text : String) : Option String :=
  match pyFind text '{', pyRfind text '}' with
  | some a, some b => some (pySlice text a (b + 1))
  | _, _ => none

/-! ## Escalation handler (`managers/crisis.py`,
`CrisisManager.handle_crisis_situation`) -/

namespace CrisisManager

/-- The fixed fallback of lines 120-124 (`fallback_name` is always the profile
name: the only statement before the `try` that can raise is the profile read,
whose exception leaves the function before the `except` exists). -/
def fallbackMessage (name : Option String) : String :=
  "What's really on your heart right now, " ++ pyStr name ++
    "? How can I best support you today?"

/-- The `LLMMessage(...)` construction of lines 110-114, with pydantic
validation: `content` must be a `str`, the two lists must be `List[str]`;
a validation failure is an exception caught by the outer `except`. -/
def mkCrisisMessage (d : List (String × PyVal)) : Option LLMMessage := do
  let contentV := (PyVal.dictGet d "crisis_response").getD (.pstr "")
  let suggV := (PyVal.dictGet d "suggestions").getD (.plist [])
  let fuV := (PyVal.dictGet d "follow_up_questions").getD (.plist [])
  let content ← contentV.asStr?
  let suggestions ← suggV.asStrList?
  let follow_up_questions ← fuV.asStrList?
  pure { content := content, suggestions := suggestions,
         follow_up_questions := follow_up_questions }

/-- The `try` body of lines 86-117: invocation, strip, JSON slice, parse, and
typed construction; `none` is any raised-and-rethrown failure, which the
outer `except` maps to the fallback. -/
def crisisAttempt (env : Env) : Option LLMMessage := do
  let content ← env.crisisLLM.toOption
  let response_text := pyTrim content
  let json_str ← extractJsonSlice response_text
  let v ← env.jsonLoads json_str
  match v with
  | .pdict crisis_data => mkCrisisMessage crisis_data
  | _ => none

/-- Model of `CrisisManager.handle_crisis_situation`.  The profile read happens before
the `try`, so its exception propagates; every failure inside the `try`
(invocation failure, missing/invalid JSON, validation failure) reaches the
outer `except` and yields the fixed fallback message. -/
def handle_crisis_situation (env : Env) : Except Unit LLMMessage :=
  match env.profile with
  | .error _ => .error ()
  | .ok user_profile =>
    match crisisAttempt env with
    | some m => .ok m
    | none => .ok { content := fallbackMessage user_profile.name }

end CrisisManager

/-! ## Event extractor (`managers/events.py`,
`EventManager._extract_events_with_llm`) -/

namespace EventManager

/-- The identifier computed at lines 135-141: normalised event type, the part
of the email before `@`, the event date, and the first six hex characters of
the MD5 of the message. -/
def eventIdOf (event_type email event_date message : String) : String :=
  pyReplaceChar (pyLower event_type) ' ' '_' ++ "_" ++
    ((pySplit1 email '@').headD "") ++ "_" ++
    event_date ++ "_" ++
    String.mk ((MD5.md5hex message).toList.take 6)

/-- Body of the `try` of `_extract_events_with_llm` (lines 114-157), with
exceptions explicit.  `.error` arises from the `TypeError` of comparing a
non-numeric `confidence` with `0.7`, from `.lower()` on a non-string
`event_type`, or from pydantic rejecting a non-string `event_date`; every
such error is caught by the function's outer `except`, so the wrapper below
turns it into `None`. -/
def extract_events_try (env : Env) (message email : String) :
    Except Unit (Option Event) :=
  match env.eventLLM with
  | .error _ => .error ()
  | .ok content =>
    let response_text := pyTrim content
    match extractJsonSlice response_text with
    | none => .ok none
    | some json_str =>
      match env.jsonLoads json_str with
      | none => .ok none          -- json.JSONDecodeError: inner `except ... pass`
      | some v =>
        match v with
        | .pdict event_data =>
          if PyVal.dictHas event_data "has_event" then
            let confidence := (PyVal.dictGet event_data "confidence").getD (.pnum 0)
            if ((PyVal.dictGet event_data "has_event").getD .pnone).truthy then
              match confidence.asNum? with
              | none => .error ()
              | some c =>
                if c ≥ 0.7 then
                  let edv := (PyVal.dictGet event_data "event_date").getD .pnone
                  let etv := (PyVal.dictGet event_data "event_type").getD (.pstr "event")
                  match etv with
                  | .pstr event_type =>
                    match edv with
                    | .pstr event_date_str =>
                      .ok (some { eventid := eventIdOf event_type email event_date_str message
                                  eventType := event_type
                                  description := message
                                  eventDate := event_date_str
                                  isCompleted := false })
                    | _ => .error ()
                  | _ => .error ()
                else .ok none
            else .ok none
          else .ok none
        | _ => .ok none
  
/-- Model of `EventManager._extract_events_with_llm`: the whole body sits in
`try: ... except Exception: return None`, so the function is total. -/
def extract_events_with_llm (env : Env) (message email : String) : Option Event :=
  match extract_events_try env message email with
  | .ok r => r
  | .error _ => none

end EventManager

/-! ## Orchestrator (`chatbot.py`, `MentalHealthChatbot`)

The two pipelines are embedded with an explicit trace of external-capability
invocations (`calls`) and of tasks enqueued to the write queue (`writes`).
`asyncio.gather` starts all three fetches, so all three are traced even when
one of them raises; the relative completion order of the three is unspecified
and no claim below depends on it. -/

/-- External-capability invocations (store reads and text generations). -/
inductive ExtCall where
  | getProfile | getConv | llmEmotion | llmFilter | llmCrisis | llmEvent | llmGenerate
deriving DecidableEq, Repr

/-- A task enqueued to the write queue (operation reference plus arguments,
captured at submission). -/
inductive WriteTask where
  /-- Submission `writer.submit(message_manager.add_chat_pair, email, msg, reply, emotion, urgency)`. -/
  | chatPair (email user_message model_response emotion : String) (urgency_level : Int)
  /-- Submission `writer.submit(event_manager.add_event, email, event)`. -/
  | addEvent (email : String) (event : Event)
  /-- Submission `writer.submit(message_manager.add_suggestions, ..., emotion, urgency, email, ..., msg)`. -/
  | suggestions (email emotion : String) (urgency_level : Int) (user_message : String)
deriving DecidableEq, Repr

deriving instance DecidableEq for Except

/-- Result of one pipeline run: the reply (or the exception that escaped),
the external calls made, and the write-queue submissions, in program order. -/
structure RunResult where
  reply : Except Unit String
  calls : List ExtCall
  writes : List WriteTask
deriving DecidableEq, Repr

namespace MentalHealthChatbot

/-- The fixed redirect reply of lines 140 and 257. -/
def redirectReply : String := "Sorry but i can not answer to that question!!!."

/-- The fixed test sentinel of line 254. -/
def testSentinel : String := "[TEST CHAT SUCCESS]"

/-- Lines 125-128 (and 248): the texts handed to the topic filter — the user
sides of the last three stored turns, or the current message alone when there
is no history. -/
def lastMessagesOf (recent_messages : List MessagePair) (message : String) :
    List String :=
  if recent_messages ≠ [] then
    (recent_messages.drop (recent_messages.length - 3)).map
      (fun msg => msg.user_message.content)
  else [message]

/-- Body of the `try` of `process_conversation_async` (lines 116-174).

A `[TEST]`-prefixed message skips the filter assignment (line 135), so the
branch test at line 139 reads the unbound local `topic_filter` and raises
`UnboundLocalError`, which the enclosing `except` treats like any other
pipeline failure. -/
def asyncCore (env : Env) (email message : String) : RunResult :=
  -- asyncio.gather: all three fetches start; the gather re-raises a failure.
  let calls0 := [ExtCall.getProfile, ExtCall.llmEmotion, ExtCall.getConv]
  match env.profile with
  | .error _ => { reply := .error (), calls := calls0, writes := [] }
  | .ok user_profile =>
    let recent_messages := env.conversation
    let last_messages := lastMessagesOf recent_messages message
    let (emotion, urgency_level) := HelperManager.detect_emotion env.emotionLLM
    let _user_name := user_profile.name
    if pyStartsWith message "[TEST]" then
      -- line 139: UnboundLocalError on `topic_filter`
      { reply := .error (), calls := calls0, writes := [] }
    else
      -- `last_messages` is never empty (see `lastMessagesOf_ne_nil`), so the
      -- filter reaches its invocation; the invocation is traced here.
      let calls1 := calls0 ++ [ExtCall.llmFilter]
      match MentalHealthFilter.filter last_messages env.filterLLM with
      | .error _ => { reply := .error (), calls := calls1, writes := [] }
      | .ok topic_filter =>
        if !topic_filter.is_mental_health_related then
          let redirect := redirectReply
          { reply := .ok redirect, calls := calls1,
            writes := [.chatPair email message redirect emotion urgency_level] }
        else
          -- line 148: detached event-extractor task starts before the
          -- escalation check (and is abandoned if escalation wins).
          let calls2 := calls1 ++ [ExtCall.llmEvent]
          let event := EventManager.extract_events_with_llm env message email
          if urgency_level ≥ 5 then
            -- handle_crisis_situation re-reads the profile (which succeeded
            -- above, the environment being per-request) then invokes the LLM.
            let calls3 := calls2 ++ [ExtCall.getProfile, ExtCall.llmCrisis]
            match CrisisManager.handle_crisis_situation env with
            | .error _ => { reply := .error (), calls := calls3, writes := [] }
            | .ok crisis =>
              { reply := .ok crisis.content, calls := calls3,
                writes := [.chatPair email message crisis.content emotion urgency_level] }
          else
            let writes0 : List WriteTask :=
              match event with
              | some ev => [.addEvent email ev]
              | none => []
            -- _generate_response_async: one LLM call; its `except` re-raises.
            let calls3 := calls2 ++ [ExtCall.llmGenerate]
            match env.genLLM with
            | .error _ => { reply := .error (), calls := calls3, writes := writes0 }
            | .ok bot_message =>
              { reply := .ok bot_message, calls := calls3,
                writes := writes0 ++
                  [.chatPair email message bot_message emotion urgency_level,
                   .suggestions email emotion urgency_level message] }

/-- Model of `process_conversation_sync` (lines 243-303): the degraded fallback.  Its
own `except` clause re-raises, so a failure escapes to the caller; the
statements after `return response.content` (line 282) are dead code intended
to persist the pair, hence no write-queue submissions on this path. -/
def syncCore (env : Env) (_email message : String) : RunResult :=
  let calls0 := [ExtCall.getProfile]
  match env.profile with
  | .error _ => { reply := .error (), calls := calls0, writes := [] }
  | .ok _user_profile =>
    let calls1 := calls0 ++ [ExtCall.getConv]
    let recent_messages := env.conversation
    let last_messages := lastMessagesOf recent_messages message
    let calls2 := calls1 ++ [ExtCall.llmFilter]
    match MentalHealthFilter.filter last_messages env.filterLLM with
    | .error _ => { reply := .error (), calls := calls2, writes := [] }
    | .ok topic_filter =>
      let calls3 := calls2 ++ [ExtCall.llmEmotion]
      let (_emotion, urgency_level) := HelperManager.detect_emotion env.emotionLLM
      if pyStartsWith message "[TEST]" then
        { reply := .ok testSentinel, calls := calls3, writes := [] }
      else if !topic_filter.is_mental_health_related then
        { reply := .ok redirectReply, calls := calls3, writes := [] }
      else if urgency_level ≥ 5 then
        let calls4 := calls3 ++ [ExtCall.getProfile, ExtCall.llmCrisis]
        match CrisisManager.handle_crisis_situation env with
        | .error _ => { reply := .error (), calls := calls4, writes := [] }
        | .ok crisis =>
          { reply := .ok crisis.content, calls := calls4, writes := [] }
      else
        let calls4 := calls3 ++ [ExtCall.llmGenerate]
        match env.genLLM with
        | .error _ => { reply := .error (), calls := calls4, writes := [] }
        | .ok bot_message =>
          { reply := .ok bot_message, calls := calls4, writes := [] }

/-- Model of `process_conversation` / `process_conversation_async` lines 176-178: the
exposed operation.  Any exception in the concurrent path triggers exactly one
synchronous re-execution, whose outcome (including its exception, if any) is
the caller's; writes enqueued before the async failure stay enqueued. -/
def process (env : Env) (email message : String) : RunResult :=
  let a := asyncCore env email message
  match a.reply with
  | .ok _ => a
  | .error _ =>
    let s := syncCore env email message
    { reply := s.reply, calls := a.calls ++ s.calls, writes := a.writes ++ s.writes }

end MentalHealthChatbot

/-! ## Write queue (`firebase_writer.py`, `FirebaseWriter`) -/

namespace FirebaseWriter

/-- A queued operation, abstracted to an identifier and whether executing it
raises. -/
structure WTask where
  tid : ℕ
  fails : Bool
deriving DecidableEq, Repr

/-- The writer's observable state: the FIFO queue and the execution log.
A log entry `(tid, ok)` records one completed `queue.get()` iteration:
the task ran, `ok` telling whether it finished without raising (the worker
logs and discards a failure, then `task_done` in `finally`). -/
structure WriterState where
  queue : List WTask
  executed : List (ℕ × Bool)
deriving DecidableEq, Repr

/-- Model of `submit`: `await self.queue.put(...)` — append to the FIFO, never
executing anything. -/
def submit (s : WriterState) (t : WTask) : WriterState :=
  { s with queue := s.queue ++ [t] }

/-- A sequence of `submit`s from one caller, in order. -/
def submitAll (s : WriterState) (ts : List WTask) : WriterState :=
  ts.foldl submit s

/-- One iteration of the single worker's `while True` loop: dequeue the head
task, execute it under `try/except` (a failure is logged, never re-raised),
`task_done`.  With an empty queue, `await self.queue.get()` suspends — the
state is unchanged. -/
def workerStep (s : WriterState) : WriterState :=
  match s.queue with
  | [] => s
  | t :: rest => { queue := rest, executed := s.executed ++ [(t.tid, !t.fails)] }

/-- Iterate the worker loop `n` times. -/
def workerRun (s : WriterState) : ℕ → WriterState
  | 0 => s
  | n + 1 => workerRun (workerStep s) n

end FirebaseWriter

/-! ## Remaining definitions: proof-level predicates and the concrete
environments the witness theorems instantiate -/

/-- Invariant of the filter parse loop: a set confidence accumulator lies in
`[0.1, 1]`. -/
def ConfInv (st : Option Bool × Option ℚ × Option String) : Prop :=
  ∀ c : ℚ, st.2.1 = some c → 0.1 ≤ c ∧ c ≤ 1

/-- The JSON text of a confident extractor hit (braces written `\x7b`/`\x7d`). -/
def eventJson : String :=
  "\x7b\"has_event\": true, \"event_type\": \"exam\", \"event_date\": \"2026-10-13\", \"confidence\": 0.9\x7d"

/-- A concrete `json.loads` covering exactly the JSON texts the concrete
environments below can produce. -/
def jsonLoadsTable : String → Option PyVal := fun s =>
  if s = "\x7b\x7d" then some (.pdict [])
  else if s = eventJson then
    some (.pdict [("has_event", .pbool true), ("event_type", .pstr "exam"),
                  ("event_date", .pstr "2026-10-13"), ("confidence", .pnum 0.9)])
  else none

/-- An environment in which every collaborator succeeds benignly: profile
present, no history, urgency 2, topic relevant, no event detected. -/
def envBase : Env where
  profile := .ok { name := some "Alex" }
  conversation := []
  emotionLLM := .ok "EMOTION: Happy\nURGENCY: 2\nREASONING: good news"
  filterLLM := .ok "MENTAL_HEALTH: YES\nCONFIDENCE: 0.9\nREASON: emotions"
  crisisLLM := .ok "\x7b\x7d"
  eventLLM := .ok "no event found"
  genLLM := .ok "Glad to hear that!"
  jsonLoads := jsonLoadsTable

/-- As `envBase`, but the classifier reports a level-5 crisis. -/
def envCrisis5 : Env :=
  { envBase with emotionLLM := .ok "EMOTION: despair\nURGENCY: 5\nREASONING: crisis" }

/-- As `envBase`, but the topic filter reports irrelevance. -/
def envNotRelevant : Env :=
  { envBase with filterLLM := .ok "MENTAL_HEALTH: NO\nCONFIDENCE: 0.8\nREASON: not related" }

/-- As `envBase`, but the profile read raises (e.g. Firestore uninitialised),
on the concurrent and on the fallback path alike. -/
def envNoStore : Env := { envBase with profile := .error () }

/-- As `envBase`, but the topic-filter invocation raises. -/
def envFilterDown : Env := { envBase with filterLLM := .error () }

/-- As `envBase`, but the extractor's response is a confident event hit. -/
def envEventHit : Env := { envBase with eventLLM := .ok eventJson }

/-! ## Supporting lemmas -/

/-- The urgency clamp of `helper.py` line 77 lands in `[1, 5]`. -/
lemma clampInt_range (u : Int) :
    1 ≤ pyMaxInt 1 (pyMinInt 5 u) ∧ pyMaxInt 1 (pyMinInt 5 u) ≤ 5 := by
  unfold pyMaxInt pyMinInt
  split_ifs <;> omega

/-- The confidence clamp of `filter.py` line 75 lands in `[0.1, 1]`. -/
lemma clampQ_range (q : ℚ) :
    0.1 ≤ pyMaxQ 0.1 (pyMinQ 1 q) ∧ pyMaxQ 0.1 (pyMinQ 1 q) ≤ 1 := by
  unfold pyMaxQ pyMinQ
  split_ifs <;> constructor <;> linarith

/-- One parse-loop step keeps the urgency accumulator in `[1, 5]`. -/
lemma emotionLine_range (st : String × Int) (line : String)
    (h : 1 ≤ st.2 ∧ st.2 ≤ 5) :
    1 ≤ (HelperManager.emotionLine st line).2 ∧
      (HelperManager.emotionLine st line).2 ≤ 5 := by
  unfold HelperManager.emotionLine
  split
  · simpa using h
  · split
    · split
      · exact clampInt_range _
      · exact ⟨le_refl 1, by norm_num⟩
    · exact h

/-- The whole parse loop keeps the urgency accumulator in `[1, 5]`. -/
lemma foldl_emotionLine_range (lines : List String) :
    ∀ st : String × Int, 1 ≤ st.2 ∧ st.2 ≤ 5 →
      1 ≤ (lines.foldl HelperManager.emotionLine st).2 ∧
        (lines.foldl HelperManager.emotionLine st).2 ≤ 5 := by
  induction lines with
  | nil => intro st h; simpa using h
  | cons l ls ih =>
    intro st h
    simpa using ih _ (emotionLine_range st l h)

/-- The classifier's urgency level is always in `[1, 5]`. -/
lemma urgency_range (resp : Except Unit String) :
    1 ≤ (HelperManager.detect_emotion resp).2 ∧
      (HelperManager.detect_emotion resp).2 ≤ 5 := by
  unfold HelperManager.detect_emotion
  match resp with
  | .error _ => exact ⟨le_refl 1, by norm_num⟩
  | .ok content => exact foldl_emotionLine_range _ _ ⟨le_refl 1, by norm_num⟩

lemma filterLine_conf (st : Option Bool × Option ℚ × Option String)
    (line : String) (h : ConfInv st) : ConfInv (MentalHealthFilter.filterLine st line) := by
  unfold MentalHealthFilter.filterLine
  split
  · intro c hc
    exact h c (by simpa using hc)
  · split
    · intro c hc
      simp only [Option.some.injEq] at hc
      subst hc
      split
      · exact clampQ_range _
      · norm_num
    · split
      · intro c hc
        exact h c (by simpa using hc)
      · exact h

lemma foldl_filterLine_conf (lines : List String) :
    ∀ st, ConfInv st → ConfInv (lines.foldl MentalHealthFilter.filterLine st) := by
  induction lines with
  | nil => intro st h; exact h
  | cons l ls ih =>
    intro st h
    rw [List.foldl_cons]
    exact ih _ (filterLine_conf st l h)

/-- A returned topic verdict carries a confidence in `[0.1, 1]`. -/
lemma filter_conf_range (msgs : List String) (resp : Except Unit String)
    (v : MentalHealthTopicFilter)
    (h : MentalHealthFilter.filter msgs resp = .ok v) :
    0.1 ≤ v.confidence_score ∧ v.confidence_score ≤ 1 := by
  unfold MentalHealthFilter.filter at h
  rcases hm : msgs.getLast? with _ | x <;> rw [hm] at h
  · exact absurd h (by simp)
  · rcases resp with _ | content
    · exact absurd h (by simp)
    · simp only [Except.ok.injEq] at h
      have hinv := foldl_filterLine_conf (pySplitLines (pyTrim content))
        (none, none, none) (by intro c hc; simp at hc)
      rcases hc : (pySplitLines (pyTrim content)).foldl
          MentalHealthFilter.filterLine (none, none, none) with ⟨im, conf, reason⟩
      subst h
      rcases conf with _ | c
      · simp [hc]; norm_num
      · have := hinv c (by rw [hc])
        simpa [hc] using this

/-- The filter raises on the empty message list (the `last_messages[-1]` read
precedes everything else). -/
lemma filter_nil (resp : Except Unit String) :
    MentalHealthFilter.filter [] resp = .error () := rfl

/-- An invocation failure propagates out of the filter for every input list. -/
lemma filter_invocation_error (msgs : List String) :
    MentalHealthFilter.filter msgs (.error ()) = .error () := by
  unfold MentalHealthFilter.filter
  rcases hm : msgs.getLast? with _ | x <;> simp

/-- Both orchestrator call sites hand the filter a non-empty list. -/
lemma lastMessagesOf_ne_nil (conv : List MessagePair) (message : String) :
    MentalHealthChatbot.lastMessagesOf conv message ≠ [] := by
  unfold MentalHealthChatbot.lastMessagesOf
  split
  · rename_i hne
    simp only [ne_eq, List.map_eq_nil_iff, List.drop_eq_nil_iff]
    rcases conv with _ | ⟨p, rest⟩
    · simp at hne
    · simp only [List.length_cons]
      omega
  · simp

/-- Once the profile read has succeeded, the crisis handler cannot raise: every
failure inside its `try` lands on the fixed fallback message. -/
lemma crisis_ok (env : Env) (p : UserProfile) (hp : env.profile = .ok p) :
    ∃ m, CrisisManager.handle_crisis_situation env = .ok m := by
  unfold CrisisManager.handle_crisis_situation
  rw [hp]
  cases hA : CrisisManager.crisisAttempt env with
  | none => exact ⟨_, rfl⟩
  | some m => exact ⟨m, rfl⟩

/-! ## Claim theorems -/

/-- C8: for every text-generation output, including out-of-range or unparsable
output, the urgency level produced by the classifier is an integer in `[1, 5]`
and the confidence score produced by the topic filter is in `[0, 1]`
(out-of-range values are clamped, parse failures fall back to in-range
defaults). -/
theorem claim_C8_clamped_ranges :
    (∀ resp, 1 ≤ (HelperManager.detect_emotion resp).2 ∧
      (HelperManager.detect_emotion resp).2 ≤ 5) ∧
    (∀ msgs resp v, MentalHealthFilter.filter msgs resp = .ok v →
      0 ≤ v.confidence_score ∧ v.confidence_score ≤ 1) :=
  ⟨urgency_range, fun msgs resp v h =>
    have hr := filter_conf_range msgs resp v h
    ⟨le_trans (by norm_num) hr.1, hr.2⟩⟩

/-- Witness for C8: an out-of-range urgency `99` is clamped into `[1, 5]`, and
an out-of-range confidence `7.5` yields a verdict whose confidence is in
`[0, 1]`. -/
theorem claim_C8_clamped_ranges_witness :
    (1 ≤ (HelperManager.detect_emotion (.ok "EMOTION: sad\nURGENCY: 99")).2 ∧
      (HelperManager.detect_emotion (.ok "EMOTION: sad\nURGENCY: 99")).2 ≤ 5) ∧
    (0 ≤ (MentalHealthTopicFilter.mk false 1 "LLM did not provide a reason.").confidence_score ∧
      (MentalHealthTopicFilter.mk false 1 "LLM did not provide a reason.").confidence_score ≤ 1) :=
  ⟨claim_C8_clamped_ranges.1 (.ok "EMOTION: sad\nURGENCY: 99"),
   claim_C8_clamped_ranges.2 ["x"] (.ok "CONFIDENCE: 7.5")
     (MentalHealthTopicFilter.mk false 1 "LLM did not provide a reason.")
     (by with_unfolding_all decide)⟩

/-- C9: the topic filter reads the last element of its input, so it raises on
the empty list instead of returning a verdict; both orchestrator call sites
build the list with `lastMessagesOf`, which always contains at least the
current message, so the error branch is unreachable from `process`. -/
theorem claim_C9_filter_needs_nonempty :
    (∀ resp, MentalHealthFilter.filter [] resp = .error ()) ∧
    (∀ conv message, MentalHealthChatbot.lastMessagesOf conv message ≠ []) :=
  ⟨filter_nil, lastMessagesOf_ne_nil⟩

/-- When the concurrent pipeline produces a reply, `process` returns it and
the fallback never runs. -/
lemma process_of_async_ok (env : Env) (email message : String) (t : String)
    (h : (MentalHealthChatbot.asyncCore env email message).reply = .ok t) :
    MentalHealthChatbot.process env email message =
      MentalHealthChatbot.asyncCore env email message := by
  unfold MentalHealthChatbot.process
  simp only [h]

/-- When the concurrent pipeline raises, `process` is the one synchronous
re-run, its trace appended after the concurrent one's. -/
lemma process_of_async_err (env : Env) (email message : String)
    (h : (MentalHealthChatbot.asyncCore env email message).reply = .error ()) :
    MentalHealthChatbot.process env email message =
      { reply := (MentalHealthChatbot.syncCore env email message).reply
        calls := (MentalHealthChatbot.asyncCore env email message).calls ++
          (MentalHealthChatbot.syncCore env email message).calls
        writes := (MentalHealthChatbot.asyncCore env email message).writes ++
          (MentalHealthChatbot.syncCore env email message).writes } := by
  unfold MentalHealthChatbot.process
  simp only [h]

/-- C1: `process` runs the concurrent pipeline; any exception there triggers
exactly one fully synchronous re-execution whose reply is returned instead,
and an exception reaches the caller iff that single fallback run itself
raises (the fallback is never retried). -/
theorem claim_C1_single_fallback (env : Env) (email message : String) :
    (∀ t, (MentalHealthChatbot.asyncCore env email message).reply = .ok t →
      MentalHealthChatbot.process env email message =
        MentalHealthChatbot.asyncCore env email message) ∧
    ((MentalHealthChatbot.asyncCore env email message).reply = .error () →
      MentalHealthChatbot.process env email message =
        { reply := (MentalHealthChatbot.syncCore env email message).reply
          calls := (MentalHealthChatbot.asyncCore env email message).calls ++
            (MentalHealthChatbot.syncCore env email message).calls
          writes := (MentalHealthChatbot.asyncCore env email message).writes ++
            (MentalHealthChatbot.syncCore env email message).writes }) ∧
    ((MentalHealthChatbot.process env email message).reply = .error () ↔
      ((MentalHealthChatbot.asyncCore env email message).reply = .error () ∧
        (MentalHealthChatbot.syncCore env email message).reply = .error ())) := by
  refine ⟨fun t ht => process_of_async_ok env email message t ht,
    fun h => process_of_async_err env email message h, ?_⟩
  rcases ha : (MentalHealthChatbot.asyncCore env email message).reply with u | t
  · cases u
    rw [process_of_async_err env email message ha]
    exact ⟨fun h => ⟨rfl, h⟩, fun h => h.2⟩
  · rw [process_of_async_ok env email message t ha, ha]
    simp

/-- Witness for C1: with the store down on both paths, the concurrent run
fails, the single fallback also fails, and `process` propagates the error;
with a healthy environment the concurrent reply is returned as is. -/
theorem claim_C1_single_fallback_witness :
    (MentalHealthChatbot.process envNoStore "u@x.com" "hello").reply = .error () ∧
    MentalHealthChatbot.process envBase "u@x.com" "hello" =
      MentalHealthChatbot.asyncCore envBase "u@x.com" "hello" :=
  ⟨(claim_C1_single_fallback envNoStore "u@x.com" "hello").2.2.mpr
      ⟨by with_unfolding_all decide, by with_unfolding_all decide⟩,
   (claim_C1_single_fallback envBase "u@x.com" "hello").1 "Glad to hear that!"
      (by with_unfolding_all decide)⟩

/-- Lemma: `submitAll` only appends to the queue, in submission order. -/
lemma submitAll_spec (ts : List FirebaseWriter.WTask) :
    ∀ s0 : FirebaseWriter.WriterState,
      FirebaseWriter.submitAll s0 ts =
        { queue := s0.queue ++ ts, executed := s0.executed } := by
  induction ts with
  | nil => intro s0; simp [FirebaseWriter.submitAll]
  | cons t ts ih =>
    intro s0
    rw [FirebaseWriter.submitAll, List.foldl_cons]
    have h := ih (FirebaseWriter.submit s0 t)
    rw [FirebaseWriter.submitAll] at h
    rw [h]
    simp [FirebaseWriter.submit]

/-- Running the worker once per queued task drains the queue in FIFO order,
logging every task — also the failing ones. -/
lemma workerRun_drain (ts : List FirebaseWriter.WTask) :
    ∀ ex, FirebaseWriter.workerRun { queue := ts, executed := ex } ts.length =
      { queue := [], executed := ex ++ ts.map (fun t => (t.tid, !t.fails)) } := by
  induction ts with
  | nil => intro ex; simp [FirebaseWriter.workerRun]
  | cons t ts ih =>
    intro ex
    rw [List.length_cons, FirebaseWriter.workerRun]
    have hs : FirebaseWriter.workerStep { queue := t :: ts, executed := ex } =
        { queue := ts, executed := ex ++ [(t.tid, !t.fails)] } := rfl
    rw [hs, ih]
    simp

/-- C7: tasks submitted to the write queue by one caller in order T1, ..., Tn
are executed by the single worker strictly in that order, one per loop
iteration, and a task whose execution raises is logged and discarded without
preventing any later task from executing (every task appears in the execution
log, in submission order, whatever the failure flags). -/
theorem claim_C7_write_queue_fifo (s0 : FirebaseWriter.WriterState)
    (ts : List FirebaseWriter.WTask) (h : s0.queue = []) :
    FirebaseWriter.workerRun (FirebaseWriter.submitAll s0 ts) ts.length =
      { queue := [],
        executed := s0.executed ++ ts.map (fun t => (t.tid, !t.fails)) } := by
  rw [submitAll_spec ts s0, h, List.nil_append]
  exact workerRun_drain ts s0.executed

/-- Witness for C7: three tasks, the middle one failing; the log shows all
three in submission order, the failure logged and skipped. -/
theorem claim_C7_write_queue_fifo_witness :
    FirebaseWriter.workerRun
        (FirebaseWriter.submitAll { queue := [], executed := [] }
          [⟨1, false⟩, ⟨2, true⟩, ⟨3, false⟩]) 3 =
      { queue := [], executed := [(1, true), (2, false), (3, true)] } :=
  claim_C7_write_queue_fifo { queue := [], executed := [] }
    [⟨1, false⟩, ⟨2, true⟩, ⟨3, false⟩] rfl

/-- C3 (code bug): when the crisis generation returns the valid JSON object
text with no `crisis_response` key, `crisis_data.get('crisis_response', '')`
defaults to the EMPTY string, and the orchestrator returns that empty string
verbatim as the crisis reply — the escalation path can return an empty
string, which the spec forbids. -/
theorem claim_C3_empty_crisis_reply :
    CrisisManager.handle_crisis_situation envCrisis5 =
      .ok { content := "", suggestions := [], follow_up_questions := [] } ∧
    (MentalHealthChatbot.process envCrisis5 "u@x.com" "I want to end it").reply =
      .ok "" := by
  constructor <;> with_unfolding_all decide

/-- C4 (code bug): for a `[TEST]`-prefixed message in a healthy environment
the sentinel is returned, but only after the concurrent fetch phase ran (the
async path crashes on the unbound `topic_filter` and falls back) and the sync
fallback re-ran the store reads, the classifier and the topic filter — so
external text-generation and store capabilities ARE invoked, contradicting
the claimed short-circuit. -/
theorem claim_C4_test_sentinel_invokes_externals :
    (MentalHealthChatbot.process envBase "u@x.com" "[TEST] ping").reply =
      .ok MentalHealthChatbot.testSentinel ∧
    ExtCall.llmEmotion ∈
      (MentalHealthChatbot.process envBase "u@x.com" "[TEST] ping").calls ∧
    ExtCall.llmFilter ∈
      (MentalHealthChatbot.process envBase "u@x.com" "[TEST] ping").calls ∧
    ExtCall.getProfile ∈
      (MentalHealthChatbot.process envBase "u@x.com" "[TEST] ping").calls := by
  refine ⟨?_, ?_, ?_, ?_⟩ <;> with_unfolding_all decide

/-- C6 (counterexample): the topic filter does NOT map an invocation
exception to its safe default — `llm.invoke` sits outside any `try` in
`filter.py`, so the exception propagates instead of a verdict. -/
theorem claim_C6_filter_propagates_counterexample :
    MentalHealthFilter.filter ["hello"] (.error ()) = .error () := rfl

/-- A line matching none of the three labels leaves the filter accumulators
unchanged. -/
lemma filterLine_id (st : Option Bool × Option ℚ × Option String) (line : String)
    (h1 : pyStartsWith line "MENTAL_HEALTH:" = false)
    (h2 : pyStartsWith line "CONFIDENCE:" = false)
    (h3 : pyStartsWith line "REASON:" = false) :
    MentalHealthFilter.filterLine st line = st := by
  unfold MentalHealthFilter.filterLine
  rw [h1, h2, h3]
  simp

/-- A response none of whose lines carries a label parses to the untouched
accumulators. -/
lemma foldl_filterLine_id (lines : List String)
    (h : ∀ line ∈ lines, pyStartsWith line "MENTAL_HEALTH:" = false ∧
      pyStartsWith line "CONFIDENCE:" = false ∧
      pyStartsWith line "REASON:" = false) :
    ∀ st, lines.foldl MentalHealthFilter.filterLine st = st := by
  induction lines with
  | nil => intro st; rfl
  | cons l ls ih =>
    intro st
    rw [List.foldl_cons]
    have hl := h l (List.mem_cons_self l ls)
    rw [filterLine_id st l hl.1 hl.2.1 hl.2.2]
    exact ih (fun line hm => h line (List.mem_cons_of_mem l hm)) st

/-- A line matching neither classifier label leaves the emotion/urgency
accumulators unchanged. -/
lemma emotionLine_id (st : String × Int) (line : String)
    (h1 : pyStartsWith line "EMOTION:" = false)
    (h2 : pyStartsWith line "URGENCY:" = false) :
    HelperManager.emotionLine st line = st := by
  unfold HelperManager.emotionLine
  rw [h1, h2]
  simp

/-- A classifier response none of whose lines carries a label parses to the
untouched accumulators. -/
lemma foldl_emotionLine_id (lines : List String)
    (h : ∀ line ∈ lines, pyStartsWith line "EMOTION:" = false ∧
      pyStartsWith line "URGENCY:" = false) :
    ∀ st, lines.foldl HelperManager.emotionLine st = st := by
  induction lines with
  | nil => intro st; rfl
  | cons l ls ih =>
    intro st
    rw [List.foldl_cons]
    have hl := h l (List.mem_cons_self l ls)
    rw [emotionLine_id st l hl.1 hl.2]
    exact ih (fun line hm => h line (List.mem_cons_of_mem l hm)) st

/-- C6 (amended): the classifier and the event extractor map any invocation
exception AND any malformed structured output to their safe defaults —
`("neutral", 1)` and no event — without retrying (for the classifier,
malformed means no `EMOTION:`/`URGENCY:` line; for the extractor: no JSON
slice in the text, an undecodable slice, a non-dict value, or a dict without
`has_event`); the topic filter maps malformed output to its safe default
`(not relevant, 0.1, fixed reason)`, but an invocation exception is NOT
caught there: it propagates to the caller, where the orchestrator-level
fallback handles it. -/
theorem claim_C6_amended_safe_defaults :
    (HelperManager.detect_emotion (.error ()) = ("neutral", 1)) ∧
    (∀ content, (∀ line ∈ pySplitLines (pyTrim content),
        pyStartsWith line "EMOTION:" = false ∧
        pyStartsWith line "URGENCY:" = false) →
      HelperManager.detect_emotion (.ok content) = ("neutral", 1)) ∧
    (∀ (env : Env) (message email : String), env.eventLLM = .error () →
      EventManager.extract_events_with_llm env message email = none) ∧
    (∀ (env : Env) (message email content : String),
      env.eventLLM = .ok content →
      extractJsonSlice (pyTrim content) = none →
      EventManager.extract_events_with_llm env message email = none) ∧
    (∀ (env : Env) (message email content json_str : String),
      env.eventLLM = .ok content →
      extractJsonSlice (pyTrim content) = some json_str →
      env.jsonLoads json_str = none →
      EventManager.extract_events_with_llm env message email = none) ∧
    (∀ (env : Env) (message email content json_str : String) (v : PyVal),
      env.eventLLM = .ok content →
      extractJsonSlice (pyTrim content) = some json_str →
      env.jsonLoads json_str = some v →
      v.isDict = false →
      EventManager.extract_events_with_llm env message email = none) ∧
    (∀ (env : Env) (message email content json_str : String)
      (d : List (String × PyVal)),
      env.eventLLM = .ok content →
      extractJsonSlice (pyTrim content) = some json_str →
      env.jsonLoads json_str = some (.pdict d) →
      PyVal.dictHas d "has_event" = false →
      EventManager.extract_events_with_llm env message email = none) ∧
    (∀ msgs, MentalHealthFilter.filter msgs (.error ()) = .error ()) ∧
    (∀ msgs content, msgs ≠ [] →
      (∀ line ∈ pySplitLines (pyTrim content),
        pyStartsWith line "MENTAL_HEALTH:" = false ∧
        pyStartsWith line "CONFIDENCE:" = false ∧
        pyStartsWith line "REASON:" = false) →
      MentalHealthFilter.filter msgs (.ok content) =
        .ok { is_mental_health_related := false, confidence_score := 0.1,
              reason := "LLM did not provide a reason." }) := by
  refine ⟨rfl, ?_, ?_, ?_, ?_, ?_, ?_, filter_invocation_error, ?_⟩
  · intro content h
    unfold HelperManager.detect_emotion
    dsimp only
    exact foldl_emotionLine_id (pySplitLines (pyTrim content)) h ("neutral", 1)
  · intro env message email h
    unfold EventManager.extract_events_with_llm EventManager.extract_events_try
    rw [h]
  · intro env message email content h hs
    have ht : EventManager.extract_events_try env message email = .ok none := by
      unfold EventManager.extract_events_try
      rw [h]
      dsimp only
      rw [hs]
    unfold EventManager.extract_events_with_llm
    rw [ht]
  · intro env message email content json_str h hs hl
    have ht : EventManager.extract_events_try env message email = .ok none := by
      unfold EventManager.extract_events_try
      rw [h]
      dsimp only
      rw [hs]
      dsimp only
      rw [hl]
    unfold EventManager.extract_events_with_llm
    rw [ht]
  · intro env message email content json_str v h hs hl hd
    have ht : EventManager.extract_events_try env message email = .ok none := by
      unfold EventManager.extract_events_try
      rw [h]
      dsimp only
      rw [hs]
      dsimp only
      rw [hl]
      cases v with
      | pdict d => simp [PyVal.isDict] at hd
      | pnone => rfl
      | pbool b => rfl
      | pnum q => rfl
      | pstr t => rfl
      | plist l => rfl
    unfold EventManager.extract_events_with_llm
    rw [ht]
  · intro env message email content json_str d h hs hl hd
    have ht : EventManager.extract_events_try env message email = .ok none := by
      unfold EventManager.extract_events_try
      rw [h]
      dsimp only
      rw [hs]
      dsimp only
      rw [hl]
      dsimp only
      rw [hd]
      rfl
    unfold EventManager.extract_events_with_llm
    rw [ht]
  · intro msgs content hne hlines
    obtain ⟨x, hx⟩ := Option.isSome_iff_exists.mp (List.getLast?_isSome.mpr hne)
    unfold MentalHealthFilter.filter
    rw [hx]
    dsimp only
    rw [foldl_filterLine_id (pySplitLines (pyTrim content)) hlines]
    rfl

/-- Witness for C6 (amended): an unlabelled classifier response yields the
default verdict, a down extractor and a braceless extractor response both
yield no event, and an unlabelled filter response yields the default topic
verdict. -/
theorem claim_C6_amended_safe_defaults_witness :
    HelperManager.detect_emotion (.ok "complete nonsense") = ("neutral", 1) ∧
    EventManager.extract_events_with_llm
      { envBase with eventLLM := .error () } "I feel sad" "u@x.com" = none ∧
    EventManager.extract_events_with_llm envBase "I feel sad" "u@x.com" = none ∧
    MentalHealthFilter.filter ["I feel sad"] (.ok "complete nonsense") =
      .ok { is_mental_health_related := false, confidence_score := 0.1,
            reason := "LLM did not provide a reason." } :=
  ⟨claim_C6_amended_safe_defaults.2.1 "complete nonsense"
      (by with_unfolding_all decide),
   claim_C6_amended_safe_defaults.2.2.1 { envBase with eventLLM := .error () }
      "I feel sad" "u@x.com" rfl,
   claim_C6_amended_safe_defaults.2.2.2.1 envBase "I feel sad" "u@x.com"
      "no event found" rfl (by with_unfolding_all decide),
   claim_C6_amended_safe_defaults.2.2.2.2.2.2.2.2 ["I feel sad"]
      "complete nonsense" (by simp) (by with_unfolding_all decide)⟩

/-- The concurrent pipeline on the redirect branch: fixed redirect reply, one
chat-pair write enqueued, no escalation / extraction / generation. -/
lemma asyncCore_redirect (env : Env) (email message : String)
    (p : UserProfile) (tf : MentalHealthTopicFilter)
    (hp : env.profile = .ok p)
    (hf : MentalHealthFilter.filter
      (MentalHealthChatbot.lastMessagesOf env.conversation message)
      env.filterLLM = .ok tf)
    (ht : pyStartsWith message "[TEST]" = false)
    (hrel : tf.is_mental_health_related = false) :
    MentalHealthChatbot.asyncCore env email message =
      { reply := .ok MentalHealthChatbot.redirectReply
        calls := [.getProfile, .llmEmotion, .getConv, .llmFilter]
        writes := [.chatPair email message MentalHealthChatbot.redirectReply
          (HelperManager.detect_emotion env.emotionLLM).1
          (HelperManager.detect_emotion env.emotionLLM).2] } := by
  unfold MentalHealthChatbot.asyncCore
  rw [hp]
  dsimp only
  rw [ht, hf]
  dsimp only
  rw [hrel]
  rfl

/-- The concurrent pipeline on the escalation branch: the crisis content is the
reply, one chat-pair write enqueued, the extractor started (and abandoned). -/
lemma asyncCore_crisis (env : Env) (email message : String)
    (p : UserProfile) (tf : MentalHealthTopicFilter) (m : LLMMessage)
    (hp : env.profile = .ok p)
    (hf : MentalHealthFilter.filter
      (MentalHealthChatbot.lastMessagesOf env.conversation message)
      env.filterLLM = .ok tf)
    (ht : pyStartsWith message "[TEST]" = false)
    (hrel : tf.is_mental_health_related = true)
    (hu : 5 ≤ (HelperManager.detect_emotion env.emotionLLM).2)
    (hm : CrisisManager.handle_crisis_situation env = .ok m) :
    MentalHealthChatbot.asyncCore env email message =
      { reply := .ok m.content
        calls := [.getProfile, .llmEmotion, .getConv, .llmFilter, .llmEvent,
          .getProfile, .llmCrisis]
        writes := [.chatPair email message m.content
          (HelperManager.detect_emotion env.emotionLLM).1
          (HelperManager.detect_emotion env.emotionLLM).2] } := by
  unfold MentalHealthChatbot.asyncCore
  rw [hp]
  dsimp only
  rw [ht, hf]
  dsimp only
  rw [hrel, if_neg (by decide : ¬ ((!true) = true)), if_pos hu, hm]
  rfl

/-- The concurrent pipeline on the normal branch with generation succeeding. -/
lemma asyncCore_normal_ok (env : Env) (email message : String)
    (p : UserProfile) (tf : MentalHealthTopicFilter) (t : String)
    (hp : env.profile = .ok p)
    (hf : MentalHealthFilter.filter
      (MentalHealthChatbot.lastMessagesOf env.conversation message)
      env.filterLLM = .ok tf)
    (ht : pyStartsWith message "[TEST]" = false)
    (hrel : tf.is_mental_health_related = true)
    (hu : ¬ 5 ≤ (HelperManager.detect_emotion env.emotionLLM).2)
    (hg : env.genLLM = .ok t) :
    MentalHealthChatbot.asyncCore env email message =
      { reply := .ok t
        calls := [.getProfile, .llmEmotion, .getConv, .llmFilter, .llmEvent,
          .llmGenerate]
        writes :=
          (match EventManager.extract_events_with_llm env message email with
            | some ev => [.addEvent email ev]
            | none => []) ++
          [.chatPair email message t
            (HelperManager.detect_emotion env.emotionLLM).1
            (HelperManager.detect_emotion env.emotionLLM).2,
           .suggestions email (HelperManager.detect_emotion env.emotionLLM).1
            (HelperManager.detect_emotion env.emotionLLM).2 message] } := by
  unfold MentalHealthChatbot.asyncCore
  rw [hp]
  dsimp only
  rw [ht, hf]
  dsimp only
  rw [hrel, if_neg (by decide : ¬ ((!true) = true)), if_neg hu, hg]
  rfl

/-- The concurrent pipeline on the normal branch with generation raising: the
run fails, with any event write already enqueued. -/
lemma asyncCore_normal_err (env : Env) (email message : String)
    (p : UserProfile) (tf : MentalHealthTopicFilter)
    (hp : env.profile = .ok p)
    (hf : MentalHealthFilter.filter
      (MentalHealthChatbot.lastMessagesOf env.conversation message)
      env.filterLLM = .ok tf)
    (ht : pyStartsWith message "[TEST]" = false)
    (hrel : tf.is_mental_health_related = true)
    (hu : ¬ 5 ≤ (HelperManager.detect_emotion env.emotionLLM).2)
    (hg : env.genLLM = .error ()) :
    MentalHealthChatbot.asyncCore env email message =
      { reply := .error ()
        calls := [.getProfile, .llmEmotion, .getConv, .llmFilter, .llmEvent,
          .llmGenerate]
        writes :=
          (match EventManager.extract_events_with_llm env message email with
            | some ev => [.addEvent email ev]
            | none => []) } := by
  unfold MentalHealthChatbot.asyncCore
  rw [hp]
  dsimp only
  rw [ht, hf]
  dsimp only
  rw [hrel, if_neg (by decide : ¬ ((!true) = true)), if_neg hu, hg]
  rfl

/-- The fallback pipeline on the normal branch with generation raising: the
fallback itself raises, and it never enqueues writes. -/
lemma syncCore_normal_err (env : Env) (email message : String)
    (p : UserProfile) (tf : MentalHealthTopicFilter)
    (hp : env.profile = .ok p)
    (hf : MentalHealthFilter.filter
      (MentalHealthChatbot.lastMessagesOf env.conversation message)
      env.filterLLM = .ok tf)
    (ht : pyStartsWith message "[TEST]" = false)
    (hrel : tf.is_mental_health_related = true)
    (hu : ¬ 5 ≤ (HelperManager.detect_emotion env.emotionLLM).2)
    (hg : env.genLLM = .error ()) :
    MentalHealthChatbot.syncCore env email message =
      { reply := .error ()
        calls := [.getProfile, .getConv, .llmFilter, .llmEmotion, .llmGenerate]
        writes := [] } := by
  unfold MentalHealthChatbot.syncCore
  rw [hp]
  dsimp only
  rw [hf]
  dsimp only
  rw [ht, if_neg (by decide : ¬ (false = true)), hrel,
    if_neg (by decide : ¬ ((!true) = true)), if_neg hu, hg]
  rfl

/-- C2: the escalation handler is invoked iff the topic verdict is relevant
and the urgency level is 5 (never for urgency 1-4, whatever the verdict); its
content is returned verbatim as the reply; and the topic-filter branch is
decided before the escalation branch, so an irrelevant verdict precludes
escalation.  (The classifier clamp makes urgency 5 the same as the code's
`>= 5` test.)  Stated for the calls that reach the branch point: profile read
succeeded, the topic filter returned a verdict and the message does not carry
the reserved `[TEST]` prefix. -/
theorem claim_C2_escalation_iff (env : Env) (email message : String)
    (p : UserProfile) (tf : MentalHealthTopicFilter)
    (hp : env.profile = .ok p)
    (hf : MentalHealthFilter.filter
      (MentalHealthChatbot.lastMessagesOf env.conversation message)
      env.filterLLM = .ok tf)
    (ht : pyStartsWith message "[TEST]" = false) :
    ((ExtCall.llmCrisis ∈ (MentalHealthChatbot.process env email message).calls) ↔
      (tf.is_mental_health_related = true ∧
        (HelperManager.detect_emotion env.emotionLLM).2 = 5)) ∧
    (ExtCall.llmCrisis ∈ (MentalHealthChatbot.process env email message).calls →
      ∃ m, CrisisManager.handle_crisis_situation env = .ok m ∧
        (MentalHealthChatbot.process env email message).reply = .ok m.content) ∧
    (tf.is_mental_health_related = false →
      ExtCall.llmCrisis ∉ (MentalHealthChatbot.process env email message).calls) := by
  rcases Bool.eq_false_or_eq_true tf.is_mental_health_related with hrel | hrel
  · by_cases hu : 5 ≤ (HelperManager.detect_emotion env.emotionLLM).2
    · obtain ⟨m, hm⟩ := crisis_ok env p hp
      have ha := asyncCore_crisis env email message p tf m hp hf ht hrel hu hm
      have hpr := process_of_async_ok env email message _ (by rw [ha])
      rw [hpr, ha]
      have hu5 : (HelperManager.detect_emotion env.emotionLLM).2 = 5 :=
        le_antisymm (urgency_range env.emotionLLM).2 hu
      refine ⟨?_, ?_, ?_⟩
      · exact ⟨fun _ => ⟨hrel, hu5⟩, fun _ => by simp⟩
      · intro _
        exact ⟨m, hm, rfl⟩
      · intro hfalse
        rw [hrel] at hfalse
        exact Bool.noConfusion hfalse
    · have hu5 : ¬ (HelperManager.detect_emotion env.emotionLLM).2 = 5 := by
        intro h
        exact hu (le_of_eq h.symm)
      rcases hg : env.genLLM with u | t
      · cases u
        have ha := asyncCore_normal_err env email message p tf hp hf ht hrel hu hg
        have hs := syncCore_normal_err env email message p tf hp hf ht hrel hu hg
        have hpr := process_of_async_err env email message (by rw [ha])
        rw [hpr, ha, hs]
        refine ⟨?_, ?_, ?_⟩
        · constructor
          · intro hmem
            exact absurd hmem (by simp)
          · rintro ⟨_, h5⟩
            exact absurd h5 hu5
        · intro hmem
          exact absurd hmem (by simp)
        · intro _
          simp
      · have ha := asyncCore_normal_ok env email message p tf t hp hf ht hrel hu hg
        have hpr := process_of_async_ok env email message _ (by rw [ha])
        rw [hpr, ha]
        refine ⟨?_, ?_, ?_⟩
        · constructor
          · intro hmem
            exact absurd hmem (by simp)
          · rintro ⟨_, h5⟩
            exact absurd h5 hu5
        · intro hmem
          exact absurd hmem (by simp)
        · intro _
          simp
  · have ha := asyncCore_redirect env email message p tf hp hf ht hrel
    have hpr := process_of_async_ok env email message _ (by rw [ha])
    rw [hpr, ha]
    refine ⟨?_, ?_, ?_⟩
    · constructor
      · intro hmem
        exact absurd hmem (by simp)
      · rintro ⟨h1, _⟩
        rw [hrel] at h1
        exact Bool.noConfusion h1
    · intro hmem
      exact absurd hmem (by simp)
    · intro _
      simp

/-- Witness for C2: in a healthy environment with a relevant verdict and
urgency 5, the escalation handler is invoked. -/
theorem claim_C2_escalation_iff_witness :
    ExtCall.llmCrisis ∈
      (MentalHealthChatbot.process envCrisis5 "u@x.com" "I want to end it").calls :=
  (claim_C2_escalation_iff envCrisis5 "u@x.com" "I want to end it"
      { name := some "Alex" }
      { is_mental_health_related := true, confidence_score := 0.9,
        reason := "emotions" }
      (by with_unfolding_all decide) (by with_unfolding_all decide)
      (by with_unfolding_all decide)).1.mpr
    ⟨rfl, by with_unfolding_all decide⟩

/-- C5: on a call whose topic verdict is not relevant (profile read succeeded,
no `[TEST]` prefix), the reply is the fixed redirect string whatever the
urgency level, no escalation / extraction / generation call occurs, and on
the concurrent path exactly one write — (message, redirect reply, classifier
verdict) — is enqueued, without being awaited (the pipeline returns without
running the queue). -/
theorem claim_C5_redirect_branch (env : Env) (email message : String)
    (p : UserProfile) (tf : MentalHealthTopicFilter)
    (hp : env.profile = .ok p)
    (hf : MentalHealthFilter.filter
      (MentalHealthChatbot.lastMessagesOf env.conversation message)
      env.filterLLM = .ok tf)
    (ht : pyStartsWith message "[TEST]" = false)
    (hrel : tf.is_mental_health_related = false) :
    (MentalHealthChatbot.process env email message).reply =
      .ok MentalHealthChatbot.redirectReply ∧
    (MentalHealthChatbot.process env email message).writes =
      [.chatPair email message MentalHealthChatbot.redirectReply
        (HelperManager.detect_emotion env.emotionLLM).1
        (HelperManager.detect_emotion env.emotionLLM).2] ∧
    ExtCall.llmCrisis ∉ (MentalHealthChatbot.process env email message).calls ∧
    ExtCall.llmGenerate ∉ (MentalHealthChatbot.process env email message).calls ∧
    ExtCall.llmEvent ∉ (MentalHealthChatbot.process env email message).calls := by
  have ha := asyncCore_redirect env email message p tf hp hf ht hrel
  have hpr := process_of_async_ok env email message _ (by rw [ha])
  rw [hpr, ha]
  exact ⟨rfl, rfl, by simp, by simp, by simp⟩

/-- Witness for C5: a weather question judged not relevant yields the redirect
reply and the single enqueued chat-pair write with the classifier's verdict. -/
theorem claim_C5_redirect_branch_witness :
    (MentalHealthChatbot.process envNotRelevant "u@x.com" "whats the weather").reply =
      .ok MentalHealthChatbot.redirectReply ∧
    (MentalHealthChatbot.process envNotRelevant "u@x.com" "whats the weather").writes =
      [.chatPair "u@x.com" "whats the weather" MentalHealthChatbot.redirectReply
        "happy" 2] :=
  have hc := claim_C5_redirect_branch envNotRelevant "u@x.com" "whats the weather"
    { name := some "Alex" }
    { is_mental_health_related := false, confidence_score := 0.8,
      reason := "not related" }
    (by with_unfolding_all decide) (by with_unfolding_all decide)
    (by with_unfolding_all decide) rfl
  ⟨hc.1, hc.2.1.trans (by with_unfolding_all decide)⟩

/-- C10: the extractor returns an event only when the parsed structured
output is a dict whose `has_event` is (Python-)truthy with numeric confidence
at least 0.7 and string-typed `event_type`/`event_date` fields, and the
identifier of a returned event is `eventIdOf` — a deterministic pure function
of the event type, the user key, the event date and the message text.  In
every other case (and on any exception, which the outer `except` absorbs —
`extract_events_with_llm` is total by construction) no event is returned. -/
theorem claim_C10_extractor (env : Env) (message email : String) (e : Event)
    (h : EventManager.extract_events_with_llm env message email = some e) :
    ∃ (content json_str : String) (event_data : List (String × PyVal))
      (c : ℚ) (event_type event_date : String),
      env.eventLLM = .ok content ∧
      extractJsonSlice (pyTrim content) = some json_str ∧
      env.jsonLoads json_str = some (.pdict event_data) ∧
      PyVal.dictHas event_data "has_event" = true ∧
      ((PyVal.dictGet event_data "has_event").getD .pnone).truthy = true ∧
      ((PyVal.dictGet event_data "confidence").getD (.pnum 0)).asNum? = some c ∧
      (0.7 : ℚ) ≤ c ∧
      (PyVal.dictGet event_data "event_type").getD (.pstr "event") = .pstr event_type ∧
      (PyVal.dictGet event_data "event_date").getD .pnone = .pstr event_date ∧
      e = { eventid := EventManager.eventIdOf event_type email event_date message
            eventType := event_type
            description := message
            eventDate := event_date
            isCompleted := false } := by
  unfold EventManager.extract_events_with_llm at h
  split at h
  next r heq =>
    subst h
    unfold EventManager.extract_events_try at heq
    split at heq
    next => cases heq
    next content hcontent =>
      dsimp only at heq
      split at heq
      next => simp at heq
      next json_str hslice =>
        split at heq
        next => simp at heq
        next v hload =>
          split at heq
          next event_data =>
            split at heq
            next hhas =>
              split at heq
              next htruthy =>
                split at heq
                next => cases heq
                next c hc =>
                  split at heq
                  next hge =>
                    split at heq
                    next event_type hetv =>
                      split at heq
                      next event_date hedv =>
                        simp only [Except.ok.injEq, Option.some.injEq] at heq
                        exact ⟨content, json_str, event_data, c, event_type,
                          event_date, hcontent, hslice, hload, hhas, htruthy,
                          hc, hge, hetv, hedv, heq.symm⟩
                      next _ => cases heq
                    next _ => cases heq
                  next hge => simp at heq
              next htruthy => simp at heq
            next hhas => simp at heq
          next _ => simp at heq
  next => cases h

set_option maxRecDepth 8000 in
/-- Witness for C10: a confident extractor hit produces the event whose id is
`eventIdOf` of (type, user key, date, message) — concretely
`exam_alex_2026-10-13_ef5cba`, the hash tail being the first six hex digits
of the MD5 of the message. -/
theorem claim_C10_extractor_witness :
    (∃ (content json_str : String) (event_data : List (String × PyVal))
      (c : ℚ) (event_type event_date : String),
      envEventHit.eventLLM = .ok content ∧
      extractJsonSlice (pyTrim content) = some json_str ∧
      envEventHit.jsonLoads json_str = some (.pdict event_data) ∧
      PyVal.dictHas event_data "has_event" = true ∧
      ((PyVal.dictGet event_data "has_event").getD .pnone).truthy = true ∧
      ((PyVal.dictGet event_data "confidence").getD (.pnum 0)).asNum? = some c ∧
      (0.7 : ℚ) ≤ c ∧
      (PyVal.dictGet event_data "event_type").getD (.pstr "event") =
        .pstr event_type ∧
      (PyVal.dictGet event_data "event_date").getD .pnone = .pstr event_date ∧
      ({ eventid := "exam_alex_2026-10-13_ef5cba", eventType := "exam",
         description := "I have an exam tomorrow", eventDate := "2026-10-13",
         isCompleted := false } : Event) =
        { eventid := EventManager.eventIdOf event_type "alex@mail.com"
            event_date "I have an exam tomorrow"
          eventType := event_type
          description := "I have an exam tomorrow"
          eventDate := event_date
          isCompleted := false }) :=
  claim_C10_extractor envEventHit "I have an exam tomorrow" "alex@mail.com"
    { eventid := "exam_alex_2026-10-13_ef5cba", eventType := "exam",
      description := "I have an exam tomorrow", eventDate := "2026-10-13",
      isCompleted := false }
    (by with_unfolding_all decide)
